import Mathlib

/-!
Shallow embedding of the two utility scripts of this repository and proofs
of the specification claims about them.

The first part models `extract_elevation_from_glah14.py`: an altimetry row
is a record of the per-shot fields read from the data file, the valid
ranges come from the file attributes, and the pipeline is
clamp-bias → row filter → (longitude remap, elevation correction).

The second part models `camelplot.py`: a sample record carries an age, an
uncertainty and a group label; the renderer builds a 100-point evaluation
grid per record, a normal density curve scaled by the table length, a list
of legend handles, and aggregate statistics.

Ages, uncertainties and geophysical fields are embedded as rationals
(exact values of the numeric data); density values live in the reals.
-/

namespace Glah14

/-- One 40HZ altimetry record, with the fields the script reads. -/
structure AltimetryRow where
  recordNumber : ℕ
  timestamp : ℚ
  latitude : ℚ
  longitude : ℚ
  elevation : ℚ
  satElevCorr : ℚ
  eleBiasCorr : ℚ
  satCorrFlag : ℤ
  elevUseFlag : ℤ
  geoid : ℚ
  srtm : ℚ
deriving DecidableEq, Repr

/-- The `valid_min`/`valid_max` attributes read from the file (the script
casts them to integers). -/
structure Ranges where
  elevMin : ℤ
  elevMax : ℤ
  satElevCorrMin : ℤ
  satElevCorrMax : ℤ
  eleBiasCorrMin : ℤ
  eleBiasCorrMax : ℤ
  srtmMin : ℤ
  srtmMax : ℤ
deriving DecidableEq, Repr

/-- The geographic area-of-interest arguments of the function. -/
structure BBox where
  longMin : ℚ
  longMax : ℚ
  latMin : ℚ
  latMax : ℚ
deriving DecidableEq, Repr

/-- The default keyword arguments: `long_min=0.0, long_max=360.0,
lat_min=-90.0, lat_max=90.0`. -/
def defaultBBox : BBox := ⟨0, 360, -90, 90⟩

/-- First bias-clamp pass: `ele_bias_corr[ele_bias_corr < min] = 0.0`. -/
def clampBiasBelow (rg : Ranges) (v : ℚ) : ℚ :=
  if v < (rg.eleBiasCorrMin : ℚ) then 0 else v

/-- Second bias-clamp pass: `ele_bias_corr[ele_bias_corr > max] = 0.0`. -/
def clampBiasAbove (rg : Ranges) (v : ℚ) : ℚ :=
  if (rg.eleBiasCorrMax : ℚ) < v then 0 else v

/-- The two sequential passes that zero out-of-range bias corrections. -/
def clampBiasVal (rg : Ranges) (v : ℚ) : ℚ :=
  clampBiasAbove rg (clampBiasBelow rg v)

/-- Apply the bias clamp to a row (the script mutates the column before
building the DataFrame filter). -/
def clampBias (rg : Ranges) (r : AltimetryRow) : AltimetryRow :=
  { r with eleBiasCorr := clampBiasVal rg r.eleBiasCorr }

/-- The row filter of the script: strict bounding-box bounds, strict
elevation and SRTM valid ranges, and the two quality flags
`Sat_corr_flag == 2`, `Elev_use_flag == 0`. -/
def keepRow (bb : BBox) (rg : Ranges) (r : AltimetryRow) : Bool :=
  (r.latitude < bb.latMax) && (bb.latMin < r.latitude)
    && (r.longitude < bb.longMax) && (bb.longMin < r.longitude)
    && (r.elevation < (rg.elevMax : ℚ)) && ((rg.elevMin : ℚ) < r.elevation)
    && (r.srtm < (rg.srtmMax : ℚ)) && ((rg.srtmMin : ℚ) < r.srtm)
    && (r.satCorrFlag == 2) && (r.elevUseFlag == 0)

/-- Refinement reference, following the spec's words: rows retained only
where both flags meet the fixed acceptance values and ALL fields lie
strictly within each field's valid range (and within the bounding box).
The fields carrying a valid range in the file are the elevation, the
satellite elevation correction, the elevation bias correction and the
SRTM reference elevation. -/
def specKeepRow (bb : BBox) (rg : Ranges) (r : AltimetryRow) : Bool :=
  (r.latitude < bb.latMax) && (bb.latMin < r.latitude)
    && (r.longitude < bb.longMax) && (bb.longMin < r.longitude)
    && (r.elevation < (rg.elevMax : ℚ)) && ((rg.elevMin : ℚ) < r.elevation)
    && (r.satElevCorr < (rg.satElevCorrMax : ℚ))
    && ((rg.satElevCorrMin : ℚ) < r.satElevCorr)
    && (r.eleBiasCorr < (rg.eleBiasCorrMax : ℚ))
    && ((rg.eleBiasCorrMin : ℚ) < r.eleBiasCorr)
    && (r.srtm < (rg.srtmMax : ℚ)) && ((rg.srtmMin : ℚ) < r.srtm)
    && (r.satCorrFlag == 2) && (r.elevUseFlag == 0)

/-- Longitude remap: `df.loc[df['Longitude'] > 180, 'Longitude'] -= 360.0`. -/
def remapLongitude (lon : ℚ) : ℚ :=
  if 180 < lon then lon - 360 else lon

/-- The emitted output row (the date/time string formatting is omitted). -/
structure OutRow where
  recordNumber : ℕ
  latitude : ℚ
  longitude : ℚ
  elevationCorrected : ℚ
  srtm : ℚ
deriving DecidableEq, Repr

/-- Emit one retained row: remapped longitude and
`Elevation + Sat_ele_corr + Ele_bias_corr - Geoid - 0.7`. -/
def emitRow (r : AltimetryRow) : OutRow :=
  { recordNumber := r.recordNumber
    latitude := r.latitude
    longitude := remapLongitude r.longitude
    elevationCorrected :=
      r.elevation + r.satElevCorr + r.eleBiasCorr - r.geoid - 7/10
    srtm := r.srtm }

/-- The whole pipeline: clamp the bias column, filter the rows, emit. -/
def extractRows (bb : BBox) (rg : Ranges) (rows : List AltimetryRow) :
    List OutRow :=
  (((rows.map (clampBias rg)).filter (keepRow bb rg)).map emitRow)

end Glah14

namespace CamelPlot

/-- One row of the input DataFrame: columns `age`, `uncertainty`, `group`. -/
structure SampleRecord where
  age : ℚ
  uncertainty : ℚ
  group : String
deriving DecidableEq, Repr

/-- `df.loc[df['group'] != 'blank']`. -/
def nonBlank (df : List SampleRecord) : List SampleRecord :=
  df.filter (fun r => r.group != "blank")

/-- The aggregate-eligible subset: the non-blank rows when `has_blank` is
true, the whole table otherwise. -/
def df_no_blank (df : List SampleRecord) (has_blank : Bool) :
    List SampleRecord :=
  if has_blank then nonBlank df else df

/-- `num_samples = len(df)`. -/
def num_samples (df : List SampleRecord) : ℕ := df.length

/-- `mu_all = np.mean(df_no_blank['age'])` (mean of the eligible ages;
division by zero yields 0 on an empty table, where the script yields NaN). -/
def mu_all (df : List SampleRecord) (has_blank : Bool) : ℚ :=
  ((df_no_blank df has_blank).map SampleRecord.age).sum /
    ((df_no_blank df has_blank).length : ℚ)

/-- `np.power(df['uncertainty'], 2).sum()`, taken over the WHOLE table. -/
def sigma_all_sq (df : List SampleRecord) : ℚ :=
  (df.map (fun r => r.uncertainty ^ 2)).sum

/-- `sigma_all = np.sqrt(...)`: the quadrature sum of all uncertainties. -/
noncomputable def sigma_all (df : List SampleRecord) : ℝ :=
  Real.sqrt ((sigma_all_sq df : ℚ) : ℝ)

/-- `np.linspace(a, b, num)`: `num` points `a + i*(b-a)/(num-1)`. -/
def linspacePoint (a b : ℚ) (num i : ℕ) : ℚ :=
  a + i * (b - a) / ((num - 1 : ℕ) : ℚ)

/-- The i-th point of `np.linspace(mu - 4*sigma, mu + 4*sigma, 100)`. -/
def gridPoint (mu sigma : ℚ) (i : ℕ) : ℚ :=
  linspacePoint (mu - 4 * sigma) (mu + 4 * sigma) 100 i

/-- The whole evaluation grid `x` of one record. -/
def grid (mu sigma : ℚ) : List ℚ :=
  (List.range 100).map (gridPoint mu sigma)

/-- `stats.norm.pdf(x, mu, sigma)`: the normal probability density. -/
noncomputable def normPdf (x mu sigma : ℝ) : ℝ :=
  Real.exp (-((x - mu) ^ 2) / (2 * sigma ^ 2)) / (sigma * Real.sqrt (2 * Real.pi))

/-- The plotted value at grid point `i`: `data/num_samples`, the density
divided by the length of the whole table. -/
noncomputable def curveValue (df : List SampleRecord) (mu sigma : ℚ) (i : ℕ) : ℝ :=
  normPdf ((gridPoint mu sigma i : ℚ) : ℝ) ((mu : ℚ) : ℝ) ((sigma : ℚ) : ℝ) /
    (num_samples df : ℝ)

/-- The drawing primitive used for one record, with its alpha. -/
inductive DrawCall where
  | fillBetween (alpha : ℚ)
  | line (alpha : ℚ)
deriving DecidableEq, Repr

/-- Blank rows get `ax.fill_between(..., alpha=0.3)`, the rest
`sns.lineplot(..., alpha=0.7)`. -/
def drawCallFor (r : SampleRecord) : DrawCall :=
  if r.group = "blank" then .fillBetween (3/10) else .line (7/10)

/-- The color attached to a legend handle. `gray` is the fill color of the
blank region, `palette k` the color of the k-th drawn line, `black` the
color of the Mean summary entry. -/
inductive Color where
  | gray
  | palette (k : ℕ)
  | black
deriving DecidableEq, Repr

/-- The per-record legend handles built inside the loop: a
`("{group}:", color)` pair per row, the color fetched from the last drawn
artist (the gray fill for a blank row, the fresh palette line otherwise).
The counter is the number of lines drawn so far. -/
def handlesAux : List SampleRecord → ℕ → List (String × Color)
  | [], _ => []
  | r :: rest, k =>
    if r.group = "blank" then (r.group ++ ":", Color.gray) :: handlesAux rest k
    else (r.group ++ ":", Color.palette k) :: handlesAux rest (k + 1)

/-- The full handle list passed to `ax.legend`: the loop handles followed
by the appended `("Mean :", 'black')` summary entry. -/
def legendHandles (df : List SampleRecord) : List (String × Color) :=
  handlesAux df 0 ++ [("Mean :", Color.black)]

/-- The labels attached to axis artists while rendering: one `label=group`
per drawn row, plus `label="overall"` from the kde overlay when `overall`
is set. -/
def axisLabels (df : List SampleRecord) (overall : Bool) : List String :=
  df.map (fun r => r.group) ++ (if overall then ["overall"] else [])

/-- The pooled pseudo-data feeding the overlay: inside the loop, only the
non-blank branch appends `stats.norm.rvs(size=len(x), loc=mu, scale=sigma)`
to the cache. The sampler is passed explicitly (it is random in the
script); it receives the location, the scale and the size `len(x)`. -/
def dataCache (rvs : ℚ → ℚ → ℕ → List ℝ) :
    List SampleRecord → List ℝ
  | [] => []
  | r :: rest =>
    if r.group = "blank" then dataCache rvs rest
    else rvs r.age r.uncertainty 100 ++ dataCache rvs rest

/-- The sample table of the concrete aggregate example. -/
def aggExample : List SampleRecord :=
  [⟨21000, 3000, "a"⟩, ⟨16900, 2100, "b"⟩, ⟨7500, 2000, "blank"⟩]

/-- The blank row of the example table. -/
def blankExample : SampleRecord := ⟨7500, 2000, "blank"⟩

end CamelPlot

namespace Glah14

/-- Concrete valid ranges for the evaluation examples. The satellite
elevation correction range is deliberately narrow. -/
def sampleRanges : Ranges :=
  { elevMin := -500, elevMax := 9000
    satElevCorrMin := -1, satElevCorrMax := 1
    eleBiasCorrMin := -2, eleBiasCorrMax := 2
    srtmMin := -500, srtmMax := 9000 }

/-- A concrete row: inside the default bounding box, elevation and SRTM in
range, both flags accepted, but a satellite elevation correction far
outside its own valid range. -/
def sampleRow : AltimetryRow :=
  { recordNumber := 1, timestamp := 0
    latitude := 45, longitude := 200
    elevation := 1000, satElevCorr := 100, eleBiasCorr := 1
    satCorrFlag := 2, elevUseFlag := 0
    geoid := 30, srtm := 1000 }

/-- C6: every row retained under the default bounding box has its
longitude emitted unchanged when it is at most 180 and shifted by −360
when it is greater than 180, so the emitted value lies in (−180, 180];
in particular 200 ↦ −160 and 170 ↦ 170. -/
theorem retained_longitude_remap (rg : Ranges) (r : AltimetryRow)
    (h : keepRow defaultBBox rg r = true) :
    (r.longitude ≤ 180 → remapLongitude r.longitude = r.longitude) ∧
    (180 < r.longitude → remapLongitude r.longitude = r.longitude - 360) ∧
    (-180 < remapLongitude r.longitude ∧ remapLongitude r.longitude ≤ 180) ∧
    remapLongitude 200 = -160 ∧ remapLongitude 170 = 170 := by
  simp only [keepRow, defaultBBox, Bool.and_eq_true, decide_eq_true_eq] at h
  obtain ⟨⟨⟨⟨⟨⟨⟨⟨⟨-, -⟩, hlt⟩, hgt⟩, -⟩, -⟩, -⟩, -⟩, -⟩, -⟩ := h
  refine ⟨fun hle => ?_, fun hgt' => ?_, ?_, by norm_num [remapLongitude],
    by norm_num [remapLongitude]⟩
  · simp [remapLongitude, not_lt.2 hle]
  · simp [remapLongitude, hgt']
  · by_cases h180 : 180 < r.longitude
    · simp only [remapLongitude, if_pos h180]
      constructor <;> linarith
    · simp only [remapLongitude, if_neg h180]
      push_neg at h180
      constructor <;> linarith

/-- Witness for the longitude remap theorem at a concrete retained row. -/
theorem retained_longitude_remap_witness :
    keepRow defaultBBox sampleRanges sampleRow = true ∧
    ((sampleRow.longitude ≤ 180 →
        remapLongitude sampleRow.longitude = sampleRow.longitude) ∧
      (180 < sampleRow.longitude →
        remapLongitude sampleRow.longitude = sampleRow.longitude - 360) ∧
      (-180 < remapLongitude sampleRow.longitude ∧
        remapLongitude sampleRow.longitude ≤ 180) ∧
      remapLongitude 200 = -160 ∧ remapLongitude 170 = 170) :=
  ⟨by decide, retained_longitude_remap sampleRanges sampleRow (by decide)⟩

/-- C7 counterexample: a row retained by the actual filter although one of
its fields (the satellite elevation correction) lies outside that field's
valid range, so retention is NOT equivalent to the flags plus all fields
being within their valid ranges. -/
theorem keepRow_not_spec_counterexample :
    keepRow defaultBBox sampleRanges sampleRow = true ∧
    specKeepRow defaultBBox sampleRanges sampleRow = false ∧
    ¬((sampleRanges.satElevCorrMin : ℚ) < sampleRow.satElevCorr ∧
      sampleRow.satElevCorr < (sampleRanges.satElevCorrMax : ℚ)) := by
  refine ⟨by decide, by decide, by decide⟩

/-- C7 amended: a row is retained iff it lies strictly inside the bounding
box, its elevation and SRTM reference elevation lie strictly within their
valid ranges, and the two quality flags equal their fixed acceptance
values (2 and 0). The satellite-correction and bias-correction valid
ranges are not part of the filter. -/
theorem keepRow_characterization (bb : BBox) (rg : Ranges) (r : AltimetryRow) :
    keepRow bb rg r = true ↔
      (r.latitude < bb.latMax ∧ bb.latMin < r.latitude ∧
        r.longitude < bb.longMax ∧ bb.longMin < r.longitude ∧
        r.elevation < (rg.elevMax : ℚ) ∧ (rg.elevMin : ℚ) < r.elevation ∧
        r.srtm < (rg.srtmMax : ℚ) ∧ (rg.srtmMin : ℚ) < r.srtm ∧
        r.satCorrFlag = 2 ∧ r.elevUseFlag = 0) := by
  simp only [keepRow, Bool.and_eq_true, decide_eq_true_eq, beq_iff_eq]
  tauto

/-- C8: every row of the extractor's output carries a corrected elevation
equal to the raw elevation plus the satellite elevation correction plus
the (clamped) elevation bias correction, minus the geoid height and the
fixed 0.7 offset, for some input row. -/
theorem extract_elevation_correction (bb : BBox) (rg : Ranges)
    (rows : List AltimetryRow) (o : OutRow) (ho : o ∈ extractRows bb rg rows) :
    ∃ r ∈ rows, o.elevationCorrected =
      r.elevation + r.satElevCorr + clampBiasVal rg r.eleBiasCorr
        - r.geoid - 7/10 := by
  rcases List.mem_map.1 ho with ⟨r', hr', rfl⟩
  rcases List.mem_map.1 (List.mem_filter.1 hr').1 with ⟨r, hr, rfl⟩
  exact ⟨r, hr, by simp [emitRow, clampBias]⟩

/-- Witness for the corrected-elevation theorem at a concrete dataset. -/
theorem extract_elevation_correction_witness :
    emitRow (clampBias sampleRanges sampleRow) ∈
      extractRows defaultBBox sampleRanges [sampleRow] ∧
    ∃ r ∈ [sampleRow],
      (emitRow (clampBias sampleRanges sampleRow)).elevationCorrected =
        r.elevation + r.satElevCorr + clampBiasVal sampleRanges r.eleBiasCorr
          - r.geoid - 7/10 := by
  have hmem : emitRow (clampBias sampleRanges sampleRow) ∈
      extractRows defaultBBox sampleRanges [sampleRow] := by
    have h1 : keepRow defaultBBox sampleRanges (clampBias sampleRanges sampleRow)
        = true := by decide
    simp [extractRows, List.filter_cons, h1]
  exact ⟨hmem,
    extract_elevation_correction defaultBBox sampleRanges [sampleRow]
      (emitRow (clampBias sampleRanges sampleRow)) hmem⟩

/-- C9: the bounding-box and validity filter is idempotent: filtering its
own output changes nothing. -/
theorem keepRow_filter_idempotent (bb : BBox) (rg : Ranges)
    (rows : List AltimetryRow) :
    (rows.filter (keepRow bb rg)).filter (keepRow bb rg)
      = rows.filter (keepRow bb rg) := by
  induction rows with
  | nil => rfl
  | cons r rest ih =>
    by_cases h : keepRow bb rg r = true
    · simp [List.filter_cons, h, ih]
    · simp [List.filter_cons, h, ih]

end Glah14

namespace CamelPlot

/-- Unfolding of the non-blank filter on a cons cell. -/
theorem nonBlank_cons (r : SampleRecord) (rest : List SampleRecord) :
    nonBlank (r :: rest) =
      if r.group = "blank" then nonBlank rest else r :: nonBlank rest := by
  by_cases h : r.group = "blank" <;> simp [nonBlank, List.filter_cons, h]

/-- The pooled pseudo-data only looks at the non-blank rows. -/
theorem dataCache_eq_nonBlank (rvs : ℚ → ℚ → ℕ → List ℝ)
    (df : List SampleRecord) :
    dataCache rvs df = dataCache rvs (nonBlank df) := by
  induction df with
  | nil => rfl
  | cons r rest ih =>
    by_cases h : r.group = "blank"
    · simp only [dataCache, nonBlank_cons, if_pos h, ih]
    · simp only [dataCache, nonBlank_cons, if_neg h, ih]

/-- The per-row handle list has one entry per row, for any counter. -/
theorem handlesAux_length (df : List SampleRecord) (k : ℕ) :
    (handlesAux df k).length = df.length := by
  induction df generalizing k with
  | nil => rfl
  | cons r rest ih =>
    by_cases h : r.group = "blank"
    · simp [handlesAux, h, ih]
    · simp [handlesAux, h, ih]

/-- Every per-row handle label is a group name followed by a colon. -/
theorem handlesAux_fst_mem (df : List SampleRecord) (k : ℕ)
    (p : String × Color) (hp : p ∈ handlesAux df k) : ∃ g, p.1 = g ++ ":" := by
  induction df generalizing k with
  | nil => simp [handlesAux] at hp
  | cons r rest ih =>
    by_cases h : r.group = "blank"
    · simp only [handlesAux, if_pos h, List.mem_cons] at hp
      rcases hp with rfl | hp
      · exact ⟨r.group, rfl⟩
      · exact ih _ hp
    · simp only [handlesAux, if_neg h, List.mem_cons] at hp
      rcases hp with rfl | hp
      · exact ⟨r.group, rfl⟩
      · exact ih _ hp

/-- A group name followed by a colon never spells the overlay label. -/
theorem append_colon_ne_overall (g : String) : g ++ ":" ≠ "overall" := by
  intro h
  have hd : g.data ++ [':'] = "overall".data := by
    have h2 := congrArg String.data h
    simpa [String.data_append] using h2
  have h1 : (g.data ++ [':']).getLast? = some ':' := List.getLast?_concat _
  rw [hd] at h1
  exact absurd h1 (by decide)

/-- The density decreases with the distance from the location. -/
theorem normPdf_anti {mu sigma x y : ℝ} (hs : 0 < sigma)
    (h : |x - mu| ≤ |y - mu|) : normPdf y mu sigma ≤ normPdf x mu sigma := by
  have hc : 0 < sigma * Real.sqrt (2 * Real.pi) := by positivity
  have h2 : (x - mu) ^ 2 ≤ (y - mu) ^ 2 := by
    rw [← sq_abs (x - mu), ← sq_abs (y - mu)]
    exact pow_le_pow_left₀ (abs_nonneg _) h 2
  have h3 : -((y - mu) ^ 2) / (2 * sigma ^ 2) ≤ -((x - mu) ^ 2) / (2 * sigma ^ 2) :=
    (div_le_div_iff_of_pos_right (by positivity)).2 (neg_le_neg h2)
  exact (div_le_div_iff_of_pos_right hc).2 (Real.exp_le_exp.2 h3)

/-- C1: the aggregate mean averages the ages of the aggregate-eligible
subset (the non-blank rows when the flag is set), while the aggregate
uncertainty is the quadrature sum over the WHOLE table; on the concrete
example the mean is 18950 and the uncertainty includes the blank row. -/
theorem aggregate_mean_and_quadrature :
    (∀ df : List SampleRecord,
        mu_all df true =
          ((nonBlank df).map SampleRecord.age).sum / ((nonBlank df).length : ℚ)) ∧
    (∀ df : List SampleRecord,
        sigma_all df =
          Real.sqrt (((df.map fun r => r.uncertainty ^ 2).sum : ℚ) : ℝ)) ∧
    mu_all aggExample true = 18950 ∧
    sigma_all aggExample = Real.sqrt ((3000 : ℝ) ^ 2 + 2100 ^ 2 + 2000 ^ 2) := by
  refine ⟨fun df => rfl, fun df => rfl, ?_, ?_⟩
  · have hn : df_no_blank aggExample true =
        [⟨21000, 3000, "a"⟩, ⟨16900, 2100, "b"⟩] := by decide
    unfold mu_all
    rw [hn]
    norm_num
  · have h : sigma_all_sq aggExample = 17410000 := by
      simp only [sigma_all_sq, aggExample, List.map_cons, List.map_nil,
        List.sum_cons, List.sum_nil]
      norm_num
    unfold sigma_all
    rw [h]
    norm_num

/-- C2: the evaluation grid has 100 points spanning exactly
[mean − 4σ, mean + 4σ], the plotted value is the normal density divided
by the table length, and the plotted value peaks at any grid point
nearest the mean. -/
theorem curve_grid_peak (df : List SampleRecord) (mu sigma : ℚ)
    (hs : 0 < sigma) (i j : ℕ) (hi : i < 100) (hj : j < 100)
    (hnear : |gridPoint mu sigma i - mu| ≤ |gridPoint mu sigma j - mu|) :
    (grid mu sigma).length = 100 ∧
    gridPoint mu sigma 0 = mu - 4 * sigma ∧
    gridPoint mu sigma 99 = mu + 4 * sigma ∧
    curveValue df mu sigma i =
      normPdf ((gridPoint mu sigma i : ℚ) : ℝ) ((mu : ℚ) : ℝ) ((sigma : ℚ) : ℝ) /
        (num_samples df : ℝ) ∧
    curveValue df mu sigma j ≤ curveValue df mu sigma i := by
  refine ⟨by simp [grid], by simp [gridPoint, linspacePoint],
    by simp [gridPoint, linspacePoint], rfl, ?_⟩
  have hs' : (0 : ℝ) < ((sigma : ℚ) : ℝ) := by exact_mod_cast hs
  have hnear' : |((gridPoint mu sigma i : ℚ) : ℝ) - ((mu : ℚ) : ℝ)| ≤
      |((gridPoint mu sigma j : ℚ) : ℝ) - ((mu : ℚ) : ℝ)| := by
    exact_mod_cast hnear
  unfold curveValue
  simp only [div_eq_mul_inv]
  exact mul_le_mul_of_nonneg_right (normPdf_anti hs' hnear') (by positivity)

/-- Witness for the grid/peak theorem: record (0, 1), grid points 49 and 0. -/
theorem curve_grid_peak_witness :
    (0 : ℚ) < 1 ∧ (49 : ℕ) < 100 ∧ (0 : ℕ) < 100 ∧
    |gridPoint 0 1 49 - 0| ≤ |gridPoint 0 1 0 - 0| ∧
    ((grid 0 1).length = 100 ∧
      gridPoint 0 1 0 = 0 - 4 * 1 ∧
      gridPoint 0 1 99 = 0 + 4 * 1 ∧
      curveValue aggExample 0 1 49 =
        normPdf ((gridPoint 0 1 49 : ℚ) : ℝ) (((0 : ℚ) : ℚ) : ℝ)
          (((1 : ℚ) : ℚ) : ℝ) / (num_samples aggExample : ℝ) ∧
      curveValue aggExample 0 1 0 ≤ curveValue aggExample 0 1 49) := by
  have habs : |gridPoint 0 1 49 - 0| ≤ |gridPoint 0 1 0 - 0| := by
    have h1 : gridPoint 0 1 49 = -4/99 := by norm_num [gridPoint, linspacePoint]
    have h2 : gridPoint 0 1 0 = -4 := by norm_num [gridPoint, linspacePoint]
    rw [h1, h2, abs_le]
    norm_num [abs_of_nonpos]
  exact ⟨by norm_num, by norm_num, by norm_num, habs,
    curve_grid_peak aggExample 0 1 (by norm_num) 49 0 (by norm_num)
      (by norm_num) habs⟩

/-- C3: the renderer builds table-length + 1 colored legend entries plus,
when the overlay is enabled, one more labeled entry for the overlay,
which is excluded from the colored handle list. -/
theorem legend_entry_counts (df : List SampleRecord) (overall : Bool) :
    (axisLabels df overall).length + 1 =
      df.length + 1 + (if overall then 1 else 0) ∧
    (overall = true → "overall" ∈ axisLabels df overall) ∧
    (legendHandles df).length = df.length + 1 ∧
    ∀ p ∈ legendHandles df, p.1 ≠ "overall" := by
  refine ⟨?_, ?_, ?_, ?_⟩
  · cases overall <;> simp [axisLabels]
  · intro ho
    subst ho
    simp [axisLabels]
  · simp [legendHandles, handlesAux_length]
  · intro p hp
    have hp' : p ∈ handlesAux df 0 ++ [("Mean :", Color.black)] := hp
    rcases List.mem_append.1 hp' with hmem | hmem
    · obtain ⟨g, hg⟩ := handlesAux_fst_mem df 0 p hmem
      rw [hg]
      exact append_colon_ne_overall g
    · have hpe : p = ("Mean :", Color.black) := by simpa using hmem
      subst hpe
      decide

/-- Witness for the legend-count theorem at the example table. -/
theorem legend_entry_counts_witness :
    (axisLabels aggExample true).length + 1 =
      aggExample.length + 1 + (if true then 1 else 0) ∧
    (true = true → "overall" ∈ axisLabels aggExample true) ∧
    (legendHandles aggExample).length = aggExample.length + 1 ∧
    ∀ p ∈ legendHandles aggExample, p.1 ≠ "overall" :=
  legend_entry_counts aggExample true

/-- C4: a blank row is drawn as a 0.3-alpha filled region, every other row
as a 0.7-alpha line, and the pooled pseudo-data for the overlay is drawn
only from the non-blank rows. -/
theorem blank_fill_overall_pooled (df : List SampleRecord)
    (rvs : ℚ → ℚ → ℕ → List ℝ) (r : SampleRecord) (hr : r ∈ df) :
    (drawCallFor r = DrawCall.fillBetween (3/10) ↔ r.group = "blank") ∧
    (drawCallFor r = DrawCall.line (7/10) ↔ r.group ≠ "blank") ∧
    dataCache rvs df = dataCache rvs (nonBlank df) ∧
    ∀ s ∈ nonBlank df, s.group ≠ "blank" := by
  refine ⟨?_, ?_, dataCache_eq_nonBlank rvs df, ?_⟩
  · by_cases h : r.group = "blank" <;> simp [drawCallFor, h]
  · by_cases h : r.group = "blank" <;> simp [drawCallFor, h]
  · intro s hs
    simp only [nonBlank, List.mem_filter, bne_iff_ne, ne_eq] at hs
    exact hs.2

/-- Witness for the blank-draw/pooling theorem at the example table. -/
theorem blank_fill_overall_pooled_witness :
    blankExample ∈ aggExample ∧
    ((drawCallFor blankExample = DrawCall.fillBetween (3/10) ↔
        blankExample.group = "blank") ∧
      (drawCallFor blankExample = DrawCall.line (7/10) ↔
        blankExample.group ≠ "blank") ∧
      dataCache (fun _ _ _ => []) aggExample =
        dataCache (fun _ _ _ => []) (nonBlank aggExample) ∧
      ∀ s ∈ nonBlank aggExample, s.group ≠ "blank") :=
  ⟨by decide,
    blank_fill_overall_pooled aggExample (fun _ _ _ => []) blankExample (by decide)⟩

/-- C5: with uncertainty 0 the evaluation window is degenerate: the grid
still has its 100 points but they all equal the mean. -/
theorem zero_uncertainty_degenerate_window (mu : ℚ) :
    (grid mu 0).length = 100 ∧ ∀ x ∈ grid mu 0, x = mu := by
  refine ⟨by simp [grid], ?_⟩
  intro x hx
  simp only [grid, List.mem_map, List.mem_range] at hx
  obtain ⟨i, -, rfl⟩ := hx
  norm_num [gridPoint, linspacePoint]

/-- Witness for the degenerate-window theorem at mean 5. -/
theorem zero_uncertainty_degenerate_window_witness :
    (grid 5 0).length = 100 ∧ ∀ x ∈ grid 5 0, x = 5 :=
  zero_uncertainty_degenerate_window 5

/-- C10: a blank row in a table rendered with `has_blank = False` is still
drawn as a filled region and still excluded from the pooled pseudo-data,
but its age enters the aggregate mean, which averages the whole table. -/
theorem blank_without_flag_behavior (df : List SampleRecord)
    (rvs : ℚ → ℚ → ℕ → List ℝ) (r : SampleRecord) (hr : r ∈ df)
    (hg : r.group = "blank") :
    drawCallFor r = DrawCall.fillBetween (3/10) ∧
    r ∉ nonBlank df ∧
    dataCache rvs df = dataCache rvs (nonBlank df) ∧
    df_no_blank df false = df ∧
    mu_all df false = (df.map SampleRecord.age).sum / (df.length : ℚ) := by
  refine ⟨by simp [drawCallFor, hg], ?_, dataCache_eq_nonBlank rvs df, rfl, rfl⟩
  intro hmem
  simp only [nonBlank, List.mem_filter, bne_iff_ne, ne_eq] at hmem
  exact hmem.2 hg

/-- Witness for the unflagged-blank theorem at the example table. -/
theorem blank_without_flag_behavior_witness :
    blankExample ∈ aggExample ∧ blankExample.group = "blank" ∧
    (drawCallFor blankExample = DrawCall.fillBetween (3/10) ∧
      blankExample ∉ nonBlank aggExample ∧
      dataCache (fun _ _ _ => []) aggExample =
        dataCache (fun _ _ _ => []) (nonBlank aggExample) ∧
      df_no_blank aggExample false = aggExample ∧
      mu_all aggExample false =
        (aggExample.map SampleRecord.age).sum / (aggExample.length : ℚ)) :=
  ⟨by decide, rfl,
    blank_without_flag_behavior aggExample (fun _ _ _ => []) blankExample
      (by decide) rfl⟩

end CamelPlot
